import Mathlib

/-!
Shallow embedding of the mulder muon fluxmeter (src/mulder.c) and proofs of
the specification claims.  Doubles are modelled by exact rationals; the
external collaborators (the PUMAS transport driver, the TURTLE geodetic
library, libm's transcendental functions and printf's number formatting) are
modelled as explicit oracle parameters, while all of mulder's own control
flow, arithmetic and comparisons are translated literally from the C source.
-/

namespace Mulder

/-- FLT_EPSILON of IEEE single precision (2^-23), the tolerance used
throughout mulder.c. -/
def FLT_EPSILON : ℚ := 1 / 8388608

/-- Muon decay length, in m (MUON_C_TAU in mulder.c). -/
def MUON_C_TAU : ℚ := 658.654

/-- Muon rest mass, in GeV (MUON_MASS in mulder.c). -/
def MUON_MASS : ℚ := 0.10566

/-- Height of the bottom layer, in m (ZMIN in mulder.c). -/
def ZMIN : ℚ := -11000

/-- Top most height, in m (ZMAX in mulder.c). -/
def ZMAX : ℚ := 120000

/-- enum mulder_pid (MULDER_ANY = 0, MULDER_MUON = 13, MULDER_ANTIMUON = -13). -/
inductive Pid where
  | any
  | muon
  | antimuon
  deriving DecidableEq

/-- The integer value of a pid, as used by the C enum and by %d formatting. -/
def pidInt : Pid → ℤ
  | .any => 0
  | .muon => 13
  | .antimuon => -13

/-- enum mulder_mode. -/
inductive Mode where
  | csda
  | mixed
  | detailed
  deriving DecidableEq

/-- struct mulder_flux. -/
structure Flux where
  value : ℚ
  asymmetry : ℚ
  deriving DecidableEq

/-- The numeric fields of struct mulder_reference (its flux callback is
passed separately where needed). -/
structure RefBounds where
  energy_min : ℚ
  energy_max : ℚ
  height_min : ℚ
  height_max : ℚ
  deriving DecidableEq

/-- charge_fraction (mulder.c, lines 1595-1609): fraction of the muon flux
for a given charge, using the constant CMS charge ratio 1.2766. -/
def charge_fraction : Pid → ℚ
  | .muon => 1 / (1 + 1.2766)
  | .antimuon => 1.2766 / (1 + 1.2766)
  | .any => 1

/-- reference_flux (mulder.c, lines 1613-1629): the default reference flux
model.  The transcendental value computation (cos of the zenith angle and the
Gaisser/GCCLY parameterisation) is delegated to the oracles `flux_gccly` and
`cosdeg`; the support check and the asymmetry are mulder's own code. -/
def reference_flux (flux_gccly : ℚ → ℚ → ℚ) (cosdeg : ℚ → ℚ)
    (reference : RefBounds) (height elevation kinetic_energy : ℚ) : Flux :=
  if reference.height_min ≤ height ∧ height ≤ reference.height_max then
    { value := flux_gccly (cosdeg (90 - elevation)) kinetic_energy
      asymmetry := 2 * charge_fraction .antimuon - 1 }
  else
    { value := 0, asymmetry := 0 }

/-- default_reference (mulder.c, lines 1631-1637): the built-in reference
support. -/
def default_reference : RefBounds :=
  { energy_min := 1 / 10000
    energy_max := 10 ^ 21
    height_min := 0
    height_max := 0 }

/-- enum pumas_mode values for energy loss (PUMAS_MODE_DISABLED / CSDA /
MIXED / STRAGGLED). -/
inductive LossMode where
  | disabled
  | csda
  | mixed
  | straggled
  deriving DecidableEq

/-- enum pumas_mode values for scattering (PUMAS_MODE_DISABLED / MIXED). -/
inductive ScatMode where
  | disabled
  | mixed
  deriving DecidableEq

/-- Transport direction (PUMAS_MODE_FORWARD / BACKWARD). -/
inductive Dir where
  | forward
  | backward
  deriving DecidableEq

/-- Which stepper-backed medium callback is installed (layers_geometry or
opensky_geometry). -/
inductive Geom where
  | layers
  | opensky
  deriving DecidableEq

/-- enum pumas_event outcomes relevant to mulder's control flow. -/
inductive PEvent where
  | limit_energy
  | medium_event
  | other
  deriving DecidableEq

/-- The fields of struct pumas_context that mulder reads or writes around a
driver invocation. -/
structure Context where
  energy_loss : LossMode
  scattering : ScatMode
  limit_energy : ℚ
  direction : Dir
  medium : Geom
  event_mask : PEvent
  deriving DecidableEq

/-- Media identities as resolved from the pumas_medium pointers returned by
the driver (layers_media + i, or atmosphere_medium). -/
inductive Med where
  | layer (i : ℤ)
  | atmosphere
  deriving DecidableEq

/-- The pumas Monte Carlo state (struct pumas_state) as observed by mulder.
The ECEF position and direction are represented through their geodetic
images (latitude, longitude, height, azimuth, elevation), since mulder only
ever inspects them through the TURTLE conversions. -/
structure PState where
  charge : ℚ
  energy : ℚ
  weight : ℚ
  time : ℚ
  grammage : ℚ
  latitude : ℚ
  longitude : ℚ
  height : ℚ
  azimuth : ℚ
  elevation : ℚ
  deriving DecidableEq

/-- struct mulder_position. -/
structure Position where
  latitude : ℚ
  longitude : ℚ
  height : ℚ
  deriving DecidableEq

/-- struct mulder_direction. -/
structure Direction where
  azimuth : ℚ
  elevation : ℚ
  deriving DecidableEq

/-- struct mulder_state. -/
structure MState where
  pid : Pid
  position : Position
  direction : Direction
  energy : ℚ
  weight : ℚ
  deriving DecidableEq

/-- The all-zero mulder_state `{0.}` returned on abandoned transports
(MULDER_ANY = 0). -/
def zeroMState : MState :=
  { pid := .any
    position := { latitude := 0, longitude := 0, height := 0 }
    direction := { azimuth := 0, elevation := 0 }
    energy := 0
    weight := 0 }

/-- The zero-initialised pumas state built by init_event before its fields
are filled in (`struct state s = {.api = {.weight = 0.}}`). -/
def zeroPState : PState :=
  { charge := 0, energy := 0, weight := 0, time := 0, grammage := 0
    latitude := 0, longitude := 0, height := 0, azimuth := 0, elevation := 0 }

/-- struct mulder_intersection. -/
structure Intersection where
  layer : ℤ
  position : Position
  deriving DecidableEq

/-- The mutable numeric state of struct fluxmeter that the claims are about.
The two TURTLE steppers are opaque external objects; their (re)construction
is modelled by the counter `stepper_gen`, which update_steppers increments
exactly when it destroys and recreates them. -/
structure Fluxmeter where
  mode : Mode
  reference : RefBounds
  geomagnet : Bool
  size : ℕ
  zmax : ℚ
  ztop : ℚ
  zref : ℚ
  zref_min : ℚ
  zref_max : ℚ
  stepper_gen : ℕ
  use_external_layer : Bool
  use_geomagnet : Bool
  deriving DecidableEq

/-- update_steppers (mulder.c, lines 635-699).  Early-returns when the
cached reference support is unchanged; otherwise records the new support,
rebuilds both steppers (modelled by the stepper_gen increment) and computes
the vertical anchors ztop and zref. -/
def update_steppers (f : Fluxmeter) : Fluxmeter :=
  if f.zref_min = f.reference.height_min ∧ f.zref_max = f.reference.height_max then
    f
  else
    let g := { f with
      zref_min := f.reference.height_min
      zref_max := f.reference.height_max
      stepper_gen := f.stepper_gen + 1 }
    let zref_min := if f.reference.height_min > f.reference.height_max then
        f.reference.height_max else f.reference.height_min
    let zref_max := if f.reference.height_min > f.reference.height_max then
        f.reference.height_min else f.reference.height_max
    if g.zmax ≤ zref_min then
      { g with ztop := zref_min, zref := zref_min }
    else if g.zmax ≤ zref_max then
      { g with ztop := g.zmax, zref := g.zmax }
    else
      { g with ztop := g.zmax, zref := zref_max }

/-- The external collaborators around a fluxmeter call: `drive` is
pumas_context_transport (returning none on a non-SUCCESS return code, and
otherwise the stop event, the updated state and the entry/exit media),
`sp` is the CSDA stopping power of the atmosphere material, `expNeg` is
t ↦ exp(-t / MUON_C_TAU), `u01` is the PRNG draw, `gfmt` is printf's %g
formatting, `refFlux` is the installed reference->flux callback and
`locate` is the layered turtle_stepper_step index query. -/
structure Oracles where
  drive : Context → PState → Option (PEvent × PState × Option Med × Option Med)
  sp : ℚ → ℚ
  expNeg : ℚ → ℚ
  u01 : ℚ
  gfmt : ℚ → String
  refFlux : ℚ → ℚ → ℚ → Flux
  locate : Position → ℤ

/-- init_event (mulder.c, lines 848-904): rejects non-positive kinetic
energies through the error handler, lazily updates the steppers, refreshes
the geomagnet cache, latches use_external_layer and builds the initial pumas
state.  The returned string list collects the messages passed to
mulder_error. -/
def init_event (O : Oracles) (f : Fluxmeter) (pid : Pid) (position : Position)
    (direction : Direction) (energy : ℚ) : Fluxmeter × PState × List String :=
  if energy ≤ 0 then
    (f, zeroPState, ["bad kinetic energy (" ++ O.gfmt energy ++ ")"])
  else
    let f := update_steppers f
    let f := { f with use_geomagnet := f.geomagnet }
    let f := { f with
      use_external_layer := decide (position.height ≥ f.ztop + FLT_EPSILON) }
    let charge : ℚ :=
      if pid = .any then (if O.u01 ≤ 1 / 2 then -1 else 1)
      else if pid = .muon then -1 else 1
    let weight : ℚ := if pid = .any then 2 else 1
    (f, { zeroPState with
            charge := charge
            energy := energy
            weight := weight
            latitude := position.latitude
            longitude := position.longitude
            height := position.height
            azimuth := direction.azimuth
            elevation := direction.elevation }, [])

/-- The driver configuration installed for the backward ascent
(mulder.c, lines 911-941): the energy cap defaults to reference.energy_max
and, in Detailed mode, the regime is selected from the current kinetic
energy.  The event mask was set to the energy limit by init_event. -/
def ascentContext (mode : Mode) (energy_max K : ℚ) : Context :=
  match mode with
  | .csda =>
      { energy_loss := .csda, scattering := .disabled, limit_energy := energy_max
        direction := .backward, medium := .layers, event_mask := .limit_energy }
  | .mixed =>
      { energy_loss := .mixed, scattering := .disabled, limit_energy := energy_max
        direction := .backward, medium := .layers, event_mask := .limit_energy }
  | .detailed =>
      if K ≤ 10 - FLT_EPSILON then
        { energy_loss := .straggled, scattering := .mixed, limit_energy := 10
          direction := .backward, medium := .layers, event_mask := .limit_energy }
      else if K ≤ 100 - FLT_EPSILON then
        { energy_loss := .mixed, scattering := .mixed, limit_energy := 100
          direction := .backward, medium := .layers, event_mask := .limit_energy }
      else
        { energy_loss := .mixed, scattering := .disabled, limit_energy := energy_max
          direction := .backward, medium := .layers, event_mask := .limit_energy }

/-- The inner backward-transport loop of transport_event (mulder.c, lines
944-981).  Each iteration runs the driver; in Detailed mode an energy-limit
stop either abandons the event (energy at reference.energy_max) or re-enters
with the next-higher regime; a medium crossing exits the loop and any other
event abandons.  The fuel argument bounds the recursion (none on
exhaustion). -/
def ascendLoop (drive : Context → PState → Option (PEvent × PState × Option Med × Option Med))
    (mode : Mode) (energy_max : ℚ) : ℕ → Context → PState → Option PState
  | 0, _, _ => none
  | fuel + 1, ctx, s =>
    match drive ctx s with
    | none => none
    | some (event, s', _, _) =>
      if mode = .detailed ∧ event = .limit_energy then
        if s'.energy ≥ energy_max - FLT_EPSILON then
          none
        else if s'.energy ≥ 100 - FLT_EPSILON then
          ascendLoop drive mode energy_max fuel
            { ctx with energy_loss := .mixed, scattering := .disabled
                       limit_energy := energy_max } s'
        else
          ascendLoop drive mode energy_max fuel
            { ctx with energy_loss := .mixed, scattering := .mixed
                       limit_energy := 100 } s'
      else if event ≠ .medium_event then
        none
      else
        some s'

/-- The backward-ascent phase of transport_event (mulder.c, lines 911-990):
skipped when the observer already sits at or above ztop - FLT_EPSILON, and
otherwise requiring the loop to land within 1E-04 m of ztop. -/
def ascend_phase (O : Oracles) (fuel : ℕ) (f : Fluxmeter) (position : Position)
    (s : PState) : Option (Position × PState) :=
  if position.height < f.ztop - FLT_EPSILON then
    match ascendLoop O.drive f.mode f.reference.energy_max fuel
        (ascentContext f.mode f.reference.energy_max s.energy) s with
    | none => none
    | some s' =>
      let position' : Position :=
        { latitude := s'.latitude, longitude := s'.longitude, height := s'.height }
      if |position'.height - f.ztop| > 1 / 10000 then none
      else some (position', s')
  else
    some (position, s)

/-- The driver configuration for the forward CSDA step to the reference
height (mulder.c, lines 998-1003). -/
def descentContext (energy_min : ℚ) : Context :=
  { energy_loss := .csda, scattering := .disabled, limit_energy := energy_min
    direction := .forward, medium := .opensky, event_mask := .limit_energy }

/-- The forward CSDA phase of transport_event (mulder.c, lines 992-1041):
entered when the height after the ascent exceeds reference.height_max +
FLT_EPSILON; transports forward to zref with CSDA, restores the proper time
bookkeeping and applies the stopping-power Jacobian to the weight. -/
def descend_phase (O : Oracles) (f : Fluxmeter) (position : Position)
    (s : PState) : Option (Position × PState) :=
  if position.height > f.reference.height_max + FLT_EPSILON then
    let t0 := s.time
    let e0 := s.energy
    match O.drive (descentContext f.reference.energy_min) { s with time := 0 } with
    | none => none
    | some (event, s', _, _) =>
      if event ≠ .medium_event then none
      else
        let position' : Position :=
          { latitude := s'.latitude, longitude := s'.longitude, height := s'.height }
        if |position'.height - f.zref| > 1 / 10000 then none
        else
          let position'' := { position' with height := f.zref }
          let s'' := { s' with time := t0 - s'.time }
          let dedx0 := O.sp e0
          let dedx1 := O.sp s'.energy
          if dedx0 ≤ 0 ∨ dedx1 ≤ 0 then none
          else some (position'', { s'' with weight := s''.weight * (dedx1 / dedx0) })
  else
    some (position, s)

/-- The tail of transport_event (mulder.c, lines 1043-1063): direction at
the reference height, decay probability and the returned reference state. -/
def finalize_event (O : Oracles) (position : Position) (s : PState) : MState :=
  let pdec := O.expNeg s.time
  { pid := if s.charge < 0 then .muon else .antimuon
    position := position
    direction := { azimuth := s.azimuth, elevation := s.elevation }
    energy := s.energy
    weight := pdec * s.weight }

/-- transport_event (mulder.c, lines 906-1064). -/
def transport_event (O : Oracles) (fuel : ℕ) (f : Fluxmeter) (position : Position)
    (s : PState) : MState :=
  match ascend_phase O fuel f position s with
  | none => zeroMState
  | some (position', s') =>
    match descend_phase O f position' s' with
    | none => zeroMState
    | some (position'', s'') => finalize_event O position'' s''

/-- mulder_state_flux (mulder.c, lines 790-805): sample the reference flux
at a reference state, folding a tagged pid into the value and reporting the
tag's charge as asymmetry, then apply the transport weight. -/
def mulder_state_flux (refFlux : ℚ → ℚ → ℚ → Flux) (state : MState) : Flux :=
  let result := refFlux state.position.height state.direction.elevation state.energy
  let result :=
    if state.pid ≠ .any then
      let charge : ℚ := if state.pid = .muon then -1 else 1
      { value := result.value * (1 / 2 * (1 + charge * result.asymmetry))
        asymmetry := charge }
    else result
  { result with value := result.value * state.weight }

/-- mulder_fluxmeter_flux (mulder.c, lines 724-786).  Also returns the
fluxmeter state after the call and the error messages emitted. -/
def mulder_fluxmeter_flux (O : Oracles) (fuel : ℕ) (f : Fluxmeter)
    (initial : MState) : Flux × Fluxmeter × List String :=
  match init_event O f .muon initial.position initial.direction initial.energy with
  | (f', s, errs) =>
    if s.weight ≤ 0 then ({ value := 0, asymmetry := 0 }, f', errs)
    else if initial.pid = .any then
      if ¬ f'.geomagnet then
        let state := transport_event O fuel f' initial.position s
        if state.weight ≤ 0 then ({ value := 0, asymmetry := 0 }, f', errs)
        else (mulder_state_flux O.refFlux { state with pid := .any }, f', errs)
      else
        let s0 := transport_event O fuel f' initial.position { s with charge := -1 }
        let r0 := mulder_state_flux O.refFlux s0
        let s1 := transport_event O fuel f' initial.position { s with charge := 1 }
        let r1 := mulder_state_flux O.refFlux s1
        let tmp := r0.value + r1.value
        if tmp > 0 then
          ({ value := tmp, asymmetry := (r1.value - r0.value) / tmp }, f', errs)
        else
          ({ value := 0, asymmetry := 0 }, f', errs)
    else
      let s' := { s with charge := if initial.pid = .muon then (-1 : ℚ) else 1 }
      let state := transport_event O fuel f' initial.position s'
      if state.weight ≤ 0 then ({ value := 0, asymmetry := 0 }, f', errs)
      else (mulder_state_flux O.refFlux state, f', errs)

/-- The shared tail of mulder_fluxmeter_transport once the effective pid has
been resolved (mulder.c, lines 825-843). -/
def transport_core (O : Oracles) (fuel : ℕ) (f : Fluxmeter) (state : MState)
    (pid : Pid) : MState × Fluxmeter × List String :=
  match init_event O f pid state.position state.direction state.energy with
  | (f', s, errs) =>
    if s.weight ≤ 0 then (zeroMState, f', errs)
    else
      let result := transport_event O fuel f' state.position s
      let result :=
        if state.pid = .any ∧ f.mode = .csda then { result with pid := .any }
        else result
      (result, f', errs)

/-- mulder_fluxmeter_transport (mulder.c, lines 808-844). -/
def mulder_fluxmeter_transport (O : Oracles) (fuel : ℕ) (f : Fluxmeter)
    (state : MState) : MState × Fluxmeter × List String :=
  if state.pid = .any ∧ f.mode = .csda then
    if f.geomagnet then
      (zeroMState, f, ["bad pid (" ++ toString (pidInt state.pid) ++ ")"])
    else
      transport_core O fuel f state .muon
  else
    transport_core O fuel f state state.pid

/-- mulder_fluxmeter_whereami (mulder.c, lines 1225-1258).  Also returns the
fluxmeter state after the call. -/
def mulder_fluxmeter_whereami (O : Oracles) (f : Fluxmeter)
    (position : Position) : ℤ × Fluxmeter :=
  let f := update_steppers f
  let index := O.locate position
  ((if index > 0 then index - 1 else -1), f)

/-- The pumas state initialised by intersect and grammage (charge 1, energy
1, weight 1). -/
def probeState (position : Position) (direction : Direction) : PState :=
  { zeroPState with
      charge := 1
      energy := 1
      weight := 1
      latitude := position.latitude
      longitude := position.longitude
      height := position.height
      azimuth := direction.azimuth
      elevation := direction.elevation }

/-- mulder_fluxmeter_intersect (mulder.c, lines 1068-1129).  The context
fields that the C code leaves at their previous values (scattering and the
energy limit) are supplied as the prev arguments.  Also returns the
fluxmeter state after the call. -/
def mulder_fluxmeter_intersect (O : Oracles) (f : Fluxmeter)
    (prevScat : ScatMode) (prevLimit : ℚ) (position : Position)
    (direction : Direction) : Intersection × Fluxmeter :=
  let s := probeState position direction
  let f := update_steppers f
  let f := { f with use_geomagnet := false }
  let ctx : Context :=
    { energy_loss := .disabled, scattering := prevScat, limit_energy := prevLimit
      direction := .forward, medium := .layers, event_mask := .medium_event }
  let f := { f with
    use_external_layer := decide (position.height ≥ f.ztop + FLT_EPSILON) }
  let miss : Intersection :=
    { layer := -1, position := { latitude := 0, longitude := 0, height := 0 } }
  match O.drive ctx s with
  | none => (miss, f)
  | some (event, s', _, m1) =>
    if event ≠ .medium_event then (miss, f)
    else
      let pos' : Position :=
        { latitude := s'.latitude, longitude := s'.longitude, height := s'.height }
      match m1 with
      | none => ({ miss with position := pos' }, f)
      | some .atmosphere => ({ layer := (f.size : ℤ), position := pos' }, f)
      | some (.layer i) => ({ layer := i, position := pos' }, f)

/-- The accumulation loop of mulder_fluxmeter_grammage (mulder.c, lines
1186-1218), for a non-NULL per-layer output array modelled as a function
from medium index to accumulated grammage. -/
def grammage_loop (O : Oracles) (ctx : Context) (size : ℕ) :
    ℕ → PState → ℚ → (ℤ → ℚ) → ℚ × (ℤ → ℚ)
  | 0, s, _, bins => (s.grammage, bins)
  | fuel + 1, s, last, bins =>
    match O.drive ctx s with
    | none => (0, bins)
    | some (event, s', m0, m1) =>
      match m0 with
      | none => (s'.grammage, bins)
      | some m =>
        let i : ℤ := match m with | .atmosphere => (size : ℤ) | .layer j => j
        let bins' : ℤ → ℚ :=
          fun j => if j = i then bins j + (s'.grammage - last) else bins j
        if event ≠ .medium_event ∨ m1 = none then (s'.grammage, bins')
        else grammage_loop O ctx size fuel s' s'.grammage bins'

/-- mulder_fluxmeter_grammage (mulder.c, lines 1133-1221), with a non-NULL
per-layer array.  Also returns the fluxmeter state after the call. -/
def mulder_fluxmeter_grammage (O : Oracles) (fuel : ℕ) (f : Fluxmeter)
    (prevScat : ScatMode) (prevLimit : ℚ) (position : Position)
    (direction : Direction) : ℚ × (ℤ → ℚ) × Fluxmeter :=
  let s := probeState position direction
  let f := update_steppers f
  let f := { f with use_geomagnet := false }
  let ctx : Context :=
    { energy_loss := .disabled, scattering := prevScat, limit_energy := prevLimit
      direction := .forward, medium := .layers, event_mask := .medium_event }
  let f := { f with
    use_external_layer := decide (position.height ≥ f.ztop + FLT_EPSILON) }
  match grammage_loop O ctx f.size fuel s 0 (fun _ => 0) with
  | (total, bins) => (total, bins, f)

/-- us_standard_function (mulder.c, lines 1280-1283), with libm's exp
supplied as the oracle expq. -/
def us_standard_function (expq : ℚ → ℚ) (height lambda b : ℚ) : ℚ :=
  10 * b / lambda * expq (-(height / lambda))

/-- us_standard_density (mulder.c, lines 1285-1309): the CORSIKA
parameterisation of the US standard atmosphere.  The search over the four
shells (boundaries hc = {4E+03, 1E+04, 4E+04, 1E+05}) is unrolled; returns
the pair (density, lambda). -/
def us_standard_density (expq : ℚ → ℚ) (height : ℚ) : ℚ × ℚ :=
  if height < 4000 then
    (us_standard_function expq height (994186.38 / 100) 1222.6562, 994186.38 / 100)
  else if height < 10000 then
    (us_standard_function expq height (878153.55 / 100) 1144.9069, 878153.55 / 100)
  else if height < 40000 then
    (us_standard_function expq height (636143.04 / 100) 1305.5948, 636143.04 / 100)
  else if height < 100000 then
    (us_standard_function expq height (772170.16 / 100) 540.1778, 772170.16 / 100)
  else
    (us_standard_function expq 100000 (772170.16 / 100) 540.1778, 772170.16 / 100)

/-- atmosphere_locals (mulder.c, lines 1347-1443): the local density of the
atmosphere medium and the recommended step length.  The oracle sindeg is
libm's sin of the elevation converted to radians; accuracy is
context->accuracy.  The geodetic/horizontal conversions are folded into the
height and elevation arguments, and the geomagnetic-field cache update
(which only stores the field vector into locals->magnet) is not modelled;
the returned step in the geomagnet branch is. -/
def atmosphere_locals (expq sindeg : ℚ → ℚ) (accuracy : ℚ)
    (use_geomagnet : Bool) (height elevation : ℚ) : ℚ × ℚ :=
  let dl := us_standard_density expq height
  let density := dl.1
  let c0 := |sindeg elevation|
  let c := if c0 < 1 / 10 then 1 / 10 else c0
  let lambda := dl.2 / c
  if use_geomagnet = false then
    (density, lambda)
  else
    let lambda_g := 1000 / accuracy
    (density, if lambda < lambda_g then lambda else lambda_g)

/-- Truncation toward zero of a double cast to int, as in C. -/
def ftrunc (q : ℚ) : ℤ :=
  if 0 ≤ q then ⌊q⌋ else -⌊-q⌋

/-- Read of the packed float table at a (non-negative) flat index; the C
code indexes raw memory, out-of-range reads are modelled as 0. -/
def dataAt (data : List ℚ) (i : ℤ) : ℚ :=
  if 0 ≤ i then data.getD i.toNat 0 else 0

/-- struct reference_table (mulder.c, lines 1646-1658). -/
structure RefTable where
  n_k : ℤ
  n_c : ℤ
  n_h : ℤ
  k_min : ℚ
  k_max : ℚ
  c_min : ℚ
  c_max : ℚ
  h_min : ℚ
  h_max : ℚ
  data : List ℚ
  deriving DecidableEq

/-- The table cell pointer arithmetic of reference_table_flux:
data + 2 * ((ih * n_c + ic) * n_k + ik), channel i. -/
def tableCell (t : RefTable) (ih ic ik i : ℤ) : ℚ :=
  dataAt t.data (2 * ((ih * t.n_c + ic) * t.n_k + ik) + i)

/-- reference_table_flux (mulder.c, lines 1662-1768): tri-linear (log-linear
where positive) interpolation of a tabulated reference flux.  logO and expO
are libm's log and exp, cosdeg is x ↦ cos(x · π / 180).  The altitude grid
spacing dh is hoisted out of the n_h > 1 branch, which is harmless since
rational division is total. -/
def reference_table_flux (logO expO cosdeg : ℚ → ℚ) (t : RefTable)
    (height elevation kinetic_energy : ℚ) : Flux :=
  let dlk := logO (t.k_max / t.k_min) / ((t.n_k : ℚ) - 1)
  let hk0 := logO (kinetic_energy / t.k_min) / dlk
  if hk0 < 0 ∨ hk0 > (t.n_k : ℚ) - 1 then { value := 0, asymmetry := 0 } else
  let ik := ftrunc hk0
  let hk := hk0 - (ik : ℚ)
  let c := cosdeg (90 - elevation)
  let dc := (t.c_max - t.c_min) / ((t.n_c : ℚ) - 1)
  let hc0 := (c - t.c_min) / dc
  if hc0 < 0 ∨ hc0 > (t.n_c : ℚ) - 1 then { value := 0, asymmetry := 0 } else
  let ic := ftrunc hc0
  let hc := hc0 - (ic : ℚ)
  let dh := (t.h_max - t.h_min) / ((t.n_h : ℚ) - 1)
  let hh0 := (height - t.h_min) / dh
  if t.n_h > 1 ∧ (hh0 < 0 ∨ hh0 > (t.n_h : ℚ) - 1) then { value := 0, asymmetry := 0 } else
  let ih : ℤ := if t.n_h > 1 then ftrunc hh0 else 0
  let hh : ℚ := if t.n_h > 1 then hh0 - (ftrunc hh0 : ℚ) else 0
  let ik1 := if ik < t.n_k - 1 then ik + 1 else t.n_k - 1
  let ic1 := if ic < t.n_c - 1 then ic + 1 else t.n_c - 1
  let ih1 := if ih < t.n_h - 1 then ih + 1 else t.n_h - 1
  let channel : ℤ → ℚ := fun i =>
    let g00 := tableCell t ih ic ik i * (1 - hc) + tableCell t ih ic1 ik i * hc
    let g10 := tableCell t ih ic ik1 i * (1 - hc) + tableCell t ih ic1 ik1 i * hc
    let g01 := tableCell t ih1 ic ik i * (1 - hc) + tableCell t ih1 ic1 ik i * hc
    let g11 := tableCell t ih1 ic ik1 i * (1 - hc) + tableCell t ih1 ic1 ik1 i * hc
    let g0 :=
      if g00 ≤ 0 ∨ g10 ≤ 0 then g00 * (1 - hk) + g10 * hk
      else expO (logO g00 * (1 - hk) + logO g10 * hk)
    let g1 :=
      if g01 ≤ 0 ∨ g11 ≤ 0 then g01 * (1 - hk) + g11 * hk
      else expO (logO g01 * (1 - hk) + logO g11 * hk)
    if g0 ≤ 0 ∨ g1 ≤ 0 then g0 * (1 - hh) + g1 * hh
    else expO (logO g0 * (1 - hh) + logO g1 * hh)
  let flux0 := channel 0
  let flux1 := channel 1
  let tmp := flux0 + flux1
  if tmp > 0 then { value := tmp, asymmetry := (flux0 - flux1) / tmp }
  else { value := 0, asymmetry := 0 }

/-- The stepper-related fields of a fluxmeter: the cached anchors and the
identity of the two turtle steppers. -/
def stepperState (f : Fluxmeter) : ℚ × ℚ × ℚ × ℚ × ℚ × ℕ :=
  (f.zmax, f.ztop, f.zref, f.zref_min, f.zref_max, f.stepper_gen)

/-- Trivial concrete oracles, used to instantiate universally quantified
statements at closed inputs. -/
def oracle0 : Oracles :=
  { drive := fun _ _ => none
    sp := fun _ => 1
    expNeg := fun _ => 1
    u01 := 0
    gfmt := fun _ => "0"
    refFlux := fun _ _ _ => { value := 0, asymmetry := 0 }
    locate := fun _ => 0 }

/-- A concrete fluxmeter whose cached support agrees with its reference. -/
def fm0 : Fluxmeter :=
  { mode := .csda
    reference := { energy_min := 1 / 10000, energy_max := 10 ^ 21, height_min := 0, height_max := 0 }
    geomagnet := false
    size := 0
    zmax := 0
    ztop := 0
    zref := 0
    zref_min := 0
    zref_max := 0
    stepper_gen := 0
    use_external_layer := false
    use_geomagnet := false }

/-- A concrete fluxmeter whose cached support differs from its reference, so
that the next lazy check is due to rebuild the steppers. -/
def fmStale : Fluxmeter :=
  { fm0 with reference :=
      { energy_min := 1, energy_max := 10, height_min := 5, height_max := 7 } }

/-- A concrete detailed-mode fluxmeter for instantiating the ascent claims. -/
def fmDet : Fluxmeter :=
  { fm0 with
      mode := .detailed
      ztop := 10000
      reference := { energy_min := 1, energy_max := 1000, height_min := 0, height_max := 0 } }

/-- A concrete driver oracle that always stops on the energy limit with the
kinetic energy raised to 1000 GeV. -/
def oracleLimit : Oracles :=
  { oracle0 with
      drive := fun _ s => some (.limit_energy, { s with energy := 1000 }, none, none) }

/-- A concrete driver oracle that always returns a medium crossing with the
state unchanged, and a constant positive stopping power. -/
def oracleMedium : Oracles :=
  { oracle0 with
      drive := fun _ t => some (.medium_event, t, none, none)
      sp := fun _ => 2 }

/-- A concrete fluxmeter whose reference support lies below the observer. -/
def fmJac : Fluxmeter :=
  { fm0 with reference :=
      { energy_min := 1, energy_max := 10, height_min := -5, height_max := -5 } }

/-- A concrete 2 x 2 x 1 reference table with pairwise distinct entries. -/
def tableC5 : RefTable :=
  { n_k := 2, n_c := 2, n_h := 1, k_min := 1, k_max := 10, c_min := 0, c_max := 1
    h_min := 0, h_max := 0, data := [1, 2, 3, 4, 5, 6, 7, 8] }


/-!
Theorems settling the claims.
-/

/-- C4 (counterexample): at the admissible sample (height 0, elevation 90,
kinetic energy 1 GeV) the default reference flux returns the charge
asymmetry 1383/11383 ≈ +0.1215, which is not approximately +0.2163 (it is
not even within 0.05 of it); the claim's stated numerical value is wrong. -/
theorem default_asymmetry_value_counterexample :
    (reference_flux (fun _ _ => 0) (fun _ => 0) default_reference 0 90 1).asymmetry
      = 1383 / 11383 ∧
    ¬ |(reference_flux (fun _ _ => 0) (fun _ => 0) default_reference 0 90 1).asymmetry
        - 2163 / 10000| < 5 / 100 := by
  have hval : (reference_flux (fun _ _ => 0) (fun _ => 0) default_reference 0 90 1).asymmetry
      = 1383 / 11383 := by
    norm_num [reference_flux, default_reference, charge_fraction]
  refine ⟨hval, ?_⟩
  rw [hval, show (1383 : ℚ) / 11383 - 2163 / 10000 = -(10791429 / 113830000) by norm_num]
  rw [abs_neg, abs_of_pos (by norm_num)]
  norm_num

/-- C4 (amended): for every admissible sample of the default reference flux
(height within [height_min, height_max]) the returned charge asymmetry is
the constant 2·f - 1 with f = r/(1+r) and r = 1.2766, whose value is
approximately +0.1215 (within 10^-4). -/
theorem default_asymmetry_amended (flux_gccly : ℚ → ℚ → ℚ) (cosdeg : ℚ → ℚ)
    (height elevation kinetic : ℚ)
    (h1 : default_reference.height_min ≤ height)
    (h2 : height ≤ default_reference.height_max) :
    (reference_flux flux_gccly cosdeg default_reference height elevation kinetic).asymmetry
      = 2 * (1.2766 / (1 + 1.2766)) - 1 ∧
    |(reference_flux flux_gccly cosdeg default_reference height elevation kinetic).asymmetry
      - 1215 / 10000| < 1 / 10000 := by
  have hif : (reference_flux flux_gccly cosdeg default_reference height elevation kinetic).asymmetry
      = 2 * charge_fraction .antimuon - 1 := by
    simp only [reference_flux, if_pos (And.intro h1 h2)]
  have hval : 2 * charge_fraction .antimuon - 1 = (1383 : ℚ) / 11383 := by
    norm_num [charge_fraction]
  rw [hif, hval]
  constructor
  · norm_num
  · rw [show (1383 : ℚ) / 11383 - 1215 / 10000 = -(69 / 22766000) by norm_num]
    rw [abs_neg, abs_of_pos (by norm_num)]
    norm_num

/-- C4 (witness). -/
theorem default_asymmetry_amended_witness :
    (reference_flux (fun _ _ => 0) (fun _ => 0) default_reference 0 45 10).asymmetry
      = 2 * (1.2766 / (1 + 1.2766)) - 1 ∧
    |(reference_flux (fun _ _ => 0) (fun _ => 0) default_reference 0 45 10).asymmetry
      - 1215 / 10000| < 1 / 10000 :=
  default_asymmetry_amended (fun _ _ => 0) (fun _ => 0) 0 45 10
    (by norm_num [default_reference]) (by norm_num [default_reference])

/-- C9: the built-in default reference has support height_min = height_max
= 0 m, energy_min = 10^-4 GeV and energy_max = 10^21 GeV, and for every
sampling height other than exactly 0 its flux function returns value 0 and
asymmetry 0. -/
theorem default_reference_support :
    default_reference.height_min = 0 ∧ default_reference.height_max = 0 ∧
    default_reference.energy_min = 1 / 10 ^ 4 ∧
    default_reference.energy_max = 10 ^ 21 ∧
    ∀ (flux_gccly : ℚ → ℚ → ℚ) (cosdeg : ℚ → ℚ) (h e k : ℚ), h ≠ 0 →
      reference_flux flux_gccly cosdeg default_reference h e k
        = { value := 0, asymmetry := 0 } := by
  refine ⟨rfl, rfl, by norm_num [default_reference], rfl, ?_⟩
  intro flux_gccly cosdeg h e k hh
  have hnot : ¬ (default_reference.height_min ≤ h ∧ h ≤ default_reference.height_max) := by
    simp only [default_reference]
    rintro ⟨a, b⟩
    exact hh (le_antisymm b a)
  simp only [reference_flux, if_neg hnot]

/-- C9 (witness). -/
theorem default_reference_support_witness :
    reference_flux (fun _ _ => 0) (fun _ => 0) default_reference 1 0 1
      = { value := 0, asymmetry := 0 } :=
  default_reference_support.2.2.2.2 (fun _ _ => 0) (fun _ => 0) 1 0 1 (by norm_num)

/-- C2: whenever the steppers are rebuilt (the cached support differs from
the reference support), with the reference support swapped into ascending
order if reversed, the anchors satisfy: zmax ≤ zref_min gives ztop = zref =
zref_min; zref_min < zmax ≤ zref_max gives ztop = zref = zmax; zref_max <
zmax gives ztop = zmax and zref = zref_max. -/
theorem update_steppers_anchors (f : Fluxmeter)
    (hchg : ¬ (f.zref_min = f.reference.height_min ∧
               f.zref_max = f.reference.height_max)) :
    (f.zmax ≤ min f.reference.height_min f.reference.height_max →
      (update_steppers f).ztop = min f.reference.height_min f.reference.height_max ∧
      (update_steppers f).zref = min f.reference.height_min f.reference.height_max) ∧
    (¬ f.zmax ≤ min f.reference.height_min f.reference.height_max →
      f.zmax ≤ max f.reference.height_min f.reference.height_max →
      (update_steppers f).ztop = f.zmax ∧ (update_steppers f).zref = f.zmax) ∧
    (¬ f.zmax ≤ max f.reference.height_min f.reference.height_max →
      (update_steppers f).ztop = f.zmax ∧
      (update_steppers f).zref = max f.reference.height_min f.reference.height_max) := by
  have hmin : (if f.reference.height_min > f.reference.height_max then
      f.reference.height_max else f.reference.height_min)
      = min f.reference.height_min f.reference.height_max := by
    rcases le_or_lt f.reference.height_min f.reference.height_max with h | h
    · rw [if_neg (not_lt.mpr h), min_eq_left h]
    · rw [if_pos h, min_eq_right h.le]
  have hmax : (if f.reference.height_min > f.reference.height_max then
      f.reference.height_min else f.reference.height_max)
      = max f.reference.height_min f.reference.height_max := by
    rcases le_or_lt f.reference.height_min f.reference.height_max with h | h
    · rw [if_neg (not_lt.mpr h), max_eq_right h]
    · rw [if_pos h, max_eq_left h.le]
  simp only [update_steppers, if_neg hchg, hmin, hmax]
  refine ⟨?_, ?_, ?_⟩
  · intro h1
    rw [if_pos h1]
    exact ⟨rfl, rfl⟩
  · intro h1 h2
    rw [if_neg h1, if_pos h2]
    exact ⟨rfl, rfl⟩
  · intro h2
    have h1 : ¬ f.zmax ≤ min f.reference.height_min f.reference.height_max :=
      fun h => h2 (h.trans (min_le_max))
    rw [if_neg h1, if_neg h2]
    exact ⟨rfl, rfl⟩

/-- C2 (witness). -/
theorem update_steppers_anchors_witness :
    (update_steppers
      { mode := .csda, reference := { energy_min := 1, energy_max := 10, height_min := 3, height_max := 2 }
        geomagnet := false, size := 0, zmax := 1, ztop := 0, zref := 0
        zref_min := 0, zref_max := 0, stepper_gen := 0
        use_external_layer := false, use_geomagnet := false }).ztop = min (3 : ℚ) 2 ∧
    (update_steppers
      { mode := .csda, reference := { energy_min := 1, energy_max := 10, height_min := 3, height_max := 2 }
        geomagnet := false, size := 0, zmax := 1, ztop := 0, zref := 0
        zref_min := 0, zref_max := 0, stepper_gen := 0
        use_external_layer := false, use_geomagnet := false }).zref = min (3 : ℚ) 2 :=
  (update_steppers_anchors _ (by norm_num)).1 (by norm_num)

/-- C7 (counterexample): fmStale's cached support differs from its reference
support, so by the claim the next flux call must rebuild the steppers; but a
flux call with kinetic energy 0 returns before the lazy check and leaves the
fluxmeter (in particular its steppers and anchors) completely untouched,
while an update_steppers run would have rebuilt. -/
theorem lazy_rebuild_counterexample :
    fmStale.zref_min ≠ fmStale.reference.height_min ∧
    (mulder_fluxmeter_flux oracle0 1 fmStale zeroMState).2.1 = fmStale ∧
    (update_steppers fmStale).stepper_gen = fmStale.stepper_gen + 1 := by
  refine ⟨by norm_num [fmStale, fm0], ?_, ?_⟩
  · rfl
  · norm_num [update_steppers, fmStale, fm0]

/-- C7 (amended): the lazy stepper update rebuilds if and only if the cached
support differs from the reference support (leaving the fluxmeter entirely
unmodified when it is unchanged, and performing exactly one rebuild when it
changed), and this check runs at the start of every whereami, intersect and
grammage call, and of every flux and transport call that passes input
validation (positive kinetic energy and, for transport, an accepted pid);
calls rejected by validation return before the check. -/
theorem lazy_rebuild_amended :
    (∀ f : Fluxmeter,
      (f.zref_min = f.reference.height_min ∧ f.zref_max = f.reference.height_max →
        update_steppers f = f) ∧
      (¬ (f.zref_min = f.reference.height_min ∧ f.zref_max = f.reference.height_max) →
        (update_steppers f).stepper_gen = f.stepper_gen + 1 ∧
        (update_steppers f).zref_min = f.reference.height_min ∧
        (update_steppers f).zref_max = f.reference.height_max ∧
        (update_steppers f).zmax = f.zmax)) ∧
    (∀ (O : Oracles) (f : Fluxmeter) (p : Position),
      (mulder_fluxmeter_whereami O f p).2 = update_steppers f) ∧
    (∀ (O : Oracles) (f : Fluxmeter) (ps : ScatMode) (pl : ℚ) (p : Position) (d : Direction),
      stepperState (mulder_fluxmeter_intersect O f ps pl p d).2
        = stepperState (update_steppers f)) ∧
    (∀ (O : Oracles) (fuel : ℕ) (f : Fluxmeter) (ps : ScatMode) (pl : ℚ)
        (p : Position) (d : Direction),
      stepperState (mulder_fluxmeter_grammage O fuel f ps pl p d).2.2
        = stepperState (update_steppers f)) ∧
    (∀ (O : Oracles) (fuel : ℕ) (f : Fluxmeter) (st : MState), 0 < st.energy →
      stepperState (mulder_fluxmeter_flux O fuel f st).2.1
        = stepperState (update_steppers f)) ∧
    (∀ (O : Oracles) (fuel : ℕ) (f : Fluxmeter) (st : MState), 0 < st.energy →
      ¬ (st.pid = .any ∧ f.mode = .csda ∧ f.geomagnet = true) →
      stepperState (mulder_fluxmeter_transport O fuel f st).2.1
        = stepperState (update_steppers f)) := by
  refine ⟨?_, ?_, ?_, ?_, ?_, ?_⟩
  · intro f
    constructor
    · intro h
      simp only [update_steppers, if_pos h]
    · intro h
      simp only [update_steppers, if_neg h]
      split_ifs <;> exact ⟨rfl, rfl, rfl, rfl⟩
  · intro O f p
    rfl
  · intro O f ps pl p d
    simp only [mulder_fluxmeter_intersect]
    rcases hdr : O.drive _ _ with _ | ⟨ev, s', m0, m1⟩
    · rfl
    · by_cases hev : ev ≠ .medium_event
      · simp only [if_pos hev]
        rfl
      · simp only [if_neg hev]
        rcases m1 with _ | m
        · rfl
        · rcases m with i | _ <;> rfl
  · intro O fuel f ps pl p d
    rfl
  · intro O fuel f st hE
    have hne : ¬ st.energy ≤ 0 := not_le.mpr hE
    simp only [mulder_fluxmeter_flux, init_event, if_neg hne]
    split_ifs <;> rfl
  · intro O fuel f st hE hpid
    have hne : ¬ st.energy ≤ 0 := not_le.mpr hE
    by_cases hc : st.pid = .any ∧ f.mode = .csda
    · have hg : ¬ f.geomagnet = true := fun hgt => hpid ⟨hc.1, hc.2, hgt⟩
      have hg' : f.geomagnet = false := by
        cases hfg : f.geomagnet
        · rfl
        · exact absurd hfg hg
      simp only [mulder_fluxmeter_transport, if_pos hc, hg', Bool.false_eq_true,
        if_false, transport_core, init_event, if_neg hne]
      split_ifs <;> rfl
    · simp only [mulder_fluxmeter_transport, if_neg hc, transport_core,
        init_event, if_neg hne]
      split_ifs <;> rfl

/-- C7 (witness). -/
theorem lazy_rebuild_amended_witness :
    update_steppers fm0 = fm0 ∧
    stepperState (mulder_fluxmeter_flux oracle0 1 fm0
        { zeroMState with energy := 1 }).2.1 = stepperState (update_steppers fm0) :=
  ⟨(lazy_rebuild_amended.1 fm0).1 ⟨rfl, rfl⟩,
   lazy_rebuild_amended.2.2.2.2.1 oracle0 1 fm0 { zeroMState with energy := 1 }
     (by norm_num)⟩

/-- C6: every flux call with kinetic energy K ≤ 0 returns value 0 (and
asymmetry 0), invoking the error handler exactly once with the BadInput
message "bad kinetic energy (K)" (K formatted by printf's %g); in particular
K = 0 emits exactly "bad kinetic energy (0)". -/
theorem flux_zero_energy_reject (O : Oracles) (fuel : ℕ) (f : Fluxmeter)
    (initial : MState) (hE : initial.energy ≤ 0) :
    (mulder_fluxmeter_flux O fuel f initial).1 = { value := 0, asymmetry := 0 } ∧
    (mulder_fluxmeter_flux O fuel f initial).2.2
      = ["bad kinetic energy (" ++ O.gfmt initial.energy ++ ")"] ∧
    (initial.energy = 0 → O.gfmt 0 = "0" →
      (mulder_fluxmeter_flux O fuel f initial).2.2 = ["bad kinetic energy (0)"]) := by
  have hmain : mulder_fluxmeter_flux O fuel f initial
      = ({ value := 0, asymmetry := 0 }, f,
         ["bad kinetic energy (" ++ O.gfmt initial.energy ++ ")"]) := by
    simp only [mulder_fluxmeter_flux, init_event, if_pos hE]
    norm_num [zeroPState]
  refine ⟨by rw [hmain], by rw [hmain], ?_⟩
  intro h0 hfmt
  rw [hmain, h0, hfmt]
  rfl

/-- C6 (witness). -/
theorem flux_zero_energy_reject_witness :
    (mulder_fluxmeter_flux oracle0 1 fm0 zeroMState).1 = { value := 0, asymmetry := 0 } ∧
    (mulder_fluxmeter_flux oracle0 1 fm0 zeroMState).2.2 = ["bad kinetic energy (0)"] := by
  have h := flux_zero_energy_reject oracle0 1 fm0 zeroMState (le_refl 0)
  exact ⟨h.1, h.2.2 rfl rfl⟩

/-- C10: a transport call with an untagged state (pid = ANY) in CSDA mode
reports "bad pid (0)" through the error handler and returns the all-zero
state when a geomagnet is attached; otherwise the call behaves exactly as if
the pid had been muon, except that the returned state's pid is restored to
ANY. -/
theorem transport_untagged_csda (O : Oracles) (fuel : ℕ) (f : Fluxmeter)
    (state : MState) (hpid : state.pid = .any) (hmode : f.mode = .csda) :
    (f.geomagnet = true →
      mulder_fluxmeter_transport O fuel f state
        = (zeroMState, f, ["bad pid (0)"])) ∧
    (f.geomagnet = false →
      mulder_fluxmeter_transport O fuel f state
        = ({ (mulder_fluxmeter_transport O fuel f { state with pid := .muon }).1
               with pid := .any },
           (mulder_fluxmeter_transport O fuel f { state with pid := .muon }).2.1,
           (mulder_fluxmeter_transport O fuel f { state with pid := .muon }).2.2)) := by
  constructor
  · intro hg
    simp only [mulder_fluxmeter_transport, hpid, hmode, hg, and_self, if_true]
    rfl
  · intro hg
    have hcond : state.pid = .any ∧ f.mode = .csda := ⟨hpid, hmode⟩
    have hrhs : ¬ (({ state with pid := Pid.muon } : MState).pid = .any ∧ f.mode = .csda) := by
      simp
    simp only [mulder_fluxmeter_transport, if_pos hcond, hg, Bool.false_eq_true, if_false,
      if_neg hrhs]
    simp only [transport_core]
    rcases hini : init_event O f .muon state.position state.direction state.energy
      with ⟨f', s, errs⟩
    simp only [hini]
    by_cases hw : s.weight ≤ 0
    · simp only [if_pos hw]
      rfl
    · simp only [if_neg hw, if_pos hcond, if_neg hrhs]

/-- C10 (witness). -/
theorem transport_untagged_csda_witness :
    mulder_fluxmeter_transport oracle0 1 { fm0 with geomagnet := true } zeroMState
      = (zeroMState, { fm0 with geomagnet := true }, ["bad pid (0)"]) ∧
    mulder_fluxmeter_transport oracle0 1 fm0 zeroMState
      = ({ (mulder_fluxmeter_transport oracle0 1 fm0 { zeroMState with pid := .muon }).1
             with pid := .any },
         (mulder_fluxmeter_transport oracle0 1 fm0 { zeroMState with pid := .muon }).2.1,
         (mulder_fluxmeter_transport oracle0 1 fm0 { zeroMState with pid := .muon }).2.2) :=
  ⟨(transport_untagged_csda oracle0 1 { fm0 with geomagnet := true } zeroMState rfl rfl).1 rfl,
   (transport_untagged_csda oracle0 1 fm0 zeroMState rfl rfl).2 rfl⟩

/-- C1: in Detailed mode, for a call whose observer height lies below
ztop - FLT_EPSILON the backward ascent configures the driver from the
initial kinetic energy K (straggled/mixed/cap 10 for K ≤ 10 - eps,
mixed/mixed/cap 100 for 10 - eps < K ≤ 100 - eps, mixed/no-scattering/cap
energy_max above); when the driver stops on the energy limit the call
returns the zero (weight 0) state if the energy reached
reference.energy_max within FLT_EPSILON, and otherwise the loop re-enters
with the next-higher regime. -/
theorem detailed_ascent_regimes :
    (∀ (energy_max K : ℚ),
      (K ≤ 10 - FLT_EPSILON →
        ascentContext .detailed energy_max K =
          { energy_loss := .straggled, scattering := .mixed, limit_energy := 10
            direction := .backward, medium := .layers, event_mask := .limit_energy }) ∧
      (10 - FLT_EPSILON < K → K ≤ 100 - FLT_EPSILON →
        ascentContext .detailed energy_max K =
          { energy_loss := .mixed, scattering := .mixed, limit_energy := 100
            direction := .backward, medium := .layers, event_mask := .limit_energy }) ∧
      (100 - FLT_EPSILON < K →
        ascentContext .detailed energy_max K =
          { energy_loss := .mixed, scattering := .disabled, limit_energy := energy_max
            direction := .backward, medium := .layers, event_mask := .limit_energy })) ∧
    (∀ (O : Oracles) (fuel : ℕ) (f : Fluxmeter) (position : Position)
        (s s' : PState) (m0 m1 : Option Med),
      f.mode = .detailed →
      position.height < f.ztop - FLT_EPSILON →
      O.drive (ascentContext .detailed f.reference.energy_max s.energy) s
        = some (.limit_energy, s', m0, m1) →
      s'.energy ≥ f.reference.energy_max - FLT_EPSILON →
      transport_event O (fuel + 1) f position s = zeroMState) ∧
    (∀ (drive : Context → PState → Option (PEvent × PState × Option Med × Option Med))
        (energy_max : ℚ) (fuel : ℕ) (ctx : Context) (s s' : PState)
        (m0 m1 : Option Med),
      drive ctx s = some (.limit_energy, s', m0, m1) →
      s'.energy < energy_max - FLT_EPSILON →
      ((s'.energy < 100 - FLT_EPSILON →
        ascendLoop drive .detailed energy_max (fuel + 1) ctx s
          = ascendLoop drive .detailed energy_max fuel
              { ctx with energy_loss := .mixed, scattering := .mixed
                         limit_energy := 100 } s') ∧
       (100 - FLT_EPSILON ≤ s'.energy →
        ascendLoop drive .detailed energy_max (fuel + 1) ctx s
          = ascendLoop drive .detailed energy_max fuel
              { ctx with energy_loss := .mixed, scattering := .disabled
                         limit_energy := energy_max } s'))) := by
  refine ⟨?_, ?_, ?_⟩
  · intro energy_max K
    refine ⟨?_, ?_, ?_⟩
    · intro h1
      simp only [ascentContext, if_pos h1]
    · intro h1 h2
      simp only [ascentContext, if_neg (not_le.mpr h1), if_pos h2]
    · intro h2
      have h1 : ¬ K ≤ 10 - FLT_EPSILON := by
        intro h
        exact absurd (h.trans (by norm_num [FLT_EPSILON])) (not_le.mpr h2)
      simp only [ascentContext, if_neg h1, if_neg (not_le.mpr h2)]
  · intro O fuel f position s s' m0 m1 hmode hh hdrive hcap
    simp only [transport_event, ascend_phase, if_pos hh, hmode]
    simp only [ascendLoop, hdrive]
    have hcap' : f.reference.energy_max ≤ s'.energy + FLT_EPSILON := by linarith
    norm_num [hcap']
  · intro drive energy_max fuel ctx s s' m0 m1 hdrive hbelow
    have h1 : ¬ energy_max ≤ s'.energy + FLT_EPSILON := not_le.mpr (by linarith)
    constructor
    · intro hlow
      have h2 : ¬ (100 : ℚ) ≤ s'.energy + FLT_EPSILON := not_le.mpr (by linarith)
      simp only [ascendLoop, hdrive]
      norm_num
      rw [if_neg h1, if_neg h2]
    · intro hhigh
      have h2 : (100 : ℚ) ≤ s'.energy + FLT_EPSILON := by linarith
      simp only [ascendLoop, hdrive]
      norm_num
      rw [if_neg h1, if_pos h2]

/-- C1 (witness). -/
theorem detailed_ascent_regimes_witness :
    ascentContext .detailed 1000 5 =
      { energy_loss := .straggled, scattering := .mixed, limit_energy := 10
        direction := .backward, medium := .layers, event_mask := .limit_energy } ∧
    transport_event oracleLimit 1 fmDet { latitude := 0, longitude := 0, height := 0 }
      zeroPState = zeroMState ∧
    ascendLoop oracleLimit.drive .detailed (10 ^ 6) 1
        (ascentContext .detailed (10 ^ 6) 0) zeroPState
      = ascendLoop oracleLimit.drive .detailed (10 ^ 6) 0
          { (ascentContext .detailed (10 ^ 6) 0) with
              energy_loss := .mixed, scattering := .disabled, limit_energy := 10 ^ 6 }
          { zeroPState with energy := 1000 } := by
  refine ⟨?_, ?_, ?_⟩
  · exact (detailed_ascent_regimes.1 1000 5).1 (by norm_num [FLT_EPSILON])
  · exact detailed_ascent_regimes.2.1 oracleLimit 0 fmDet
      { latitude := 0, longitude := 0, height := 0 } zeroPState
      { zeroPState with energy := 1000 } none none rfl
      (by norm_num [fmDet, fm0, FLT_EPSILON]) rfl
      (by norm_num [fmDet, fm0, FLT_EPSILON])
  · exact (detailed_ascent_regimes.2.2 oracleLimit.drive (10 ^ 6) 0
      (ascentContext .detailed (10 ^ 6) 0) zeroPState
      { zeroPState with energy := 1000 } none none rfl
      (by norm_num [FLT_EPSILON])).2 (by norm_num [FLT_EPSILON])

/-- C3: whenever the height after the ascent exceeds reference.height_max +
FLT_EPSILON, the state is transported forward by CSDA (the context installed
for the driver is descentContext: CSDA loss, no scattering, forward, opensky
geometry) to zref, and the transport weight picks up the factor s1/s0 of the
CSDA stopping powers at the kinetic energies after and before the step;
if either stopping power is non-positive the call returns the zero-weight
state. -/
theorem csda_forward_jacobian (O : Oracles) (f : Fluxmeter) (position : Position)
    (s s' : PState) (m0 m1 : Option Med)
    (hh : position.height > f.reference.height_max + FLT_EPSILON)
    (hdrive : O.drive (descentContext f.reference.energy_min) { s with time := 0 }
        = some (.medium_event, s', m0, m1))
    (hland : |s'.height - f.zref| ≤ 1 / 10000) :
    ((O.sp s.energy ≤ 0 ∨ O.sp s'.energy ≤ 0) →
      descend_phase O f position s = none) ∧
    (0 < O.sp s.energy → 0 < O.sp s'.energy →
      descend_phase O f position s
        = some ({ latitude := s'.latitude, longitude := s'.longitude, height := f.zref },
                { s' with
                    time := s.time - s'.time
                    weight := s'.weight * (O.sp s'.energy / O.sp s.energy) })) ∧
    (∀ fuel : ℕ, ¬ position.height < f.ztop - FLT_EPSILON →
      (O.sp s.energy ≤ 0 ∨ O.sp s'.energy ≤ 0) →
      transport_event O fuel f position s = zeroMState) := by
  have hland' : ¬ (1 / 10000 : ℚ) < |s'.height - f.zref| := not_lt.mpr hland
  have hmain : descend_phase O f position s
      = if O.sp s.energy ≤ 0 ∨ O.sp s'.energy ≤ 0 then none
        else some ({ latitude := s'.latitude, longitude := s'.longitude, height := f.zref },
                   { s' with
                       time := s.time - s'.time
                       weight := s'.weight * (O.sp s'.energy / O.sp s.energy) }) := by
    simp only [descend_phase, if_pos hh, hdrive]
    norm_num [hland']
  refine ⟨?_, ?_, ?_⟩
  · intro hsp
    rw [hmain, if_pos hsp]
  · intro h0 h1
    have hsp : ¬ (O.sp s.energy ≤ 0 ∨ O.sp s'.energy ≤ 0) := by
      push_neg
      exact ⟨h0, h1⟩
    rw [hmain, if_neg hsp]
  · intro fuel hnoasc hsp
    simp only [transport_event, ascend_phase, if_neg hnoasc]
    rw [hmain, if_pos hsp]

/-- C3 (witness). -/
theorem csda_forward_jacobian_witness :
    descend_phase oracleMedium fmJac { latitude := 0, longitude := 0, height := 3 }
      zeroPState = some ({ latitude := 0, longitude := 0, height := 0 }, zeroPState) := by
  have h := (csda_forward_jacobian oracleMedium fmJac
      { latitude := 0, longitude := 0, height := 3 } zeroPState zeroPState none none
      (by norm_num [fmJac, fm0, FLT_EPSILON]) rfl
      (by norm_num [zeroPState, fmJac, fm0])).2.1
      (by norm_num [oracleMedium, oracle0]) (by norm_num [oracleMedium, oracle0])
  rw [h]
  norm_num [zeroPState, fmJac, fm0, oracleMedium, oracle0]

/-- C8: for every altitude h the atmosphere medium's local density equals
10 · b_i / lambda_i · exp(-h / lambda_i) with lambda_i = c_i · 10^-2, i the
first shell whose boundary altitude in {4, 10, 40, 100} km exceeds h, pinned
above 100 km at the 100 km boundary value; and (without a geomagnetic
field) the recommended step is lambda / |sin(elevation)|, clamped through
flooring the sine at 0.1 (so the step never exceeds lambda / 0.1). -/
theorem atmosphere_density_step (expq sindeg : ℚ → ℚ) (accuracy h elevation : ℚ) :
    (h < 4000 →
      (atmosphere_locals expq sindeg accuracy false h elevation).1
        = 10 * 1222.6562 / (994186.38 * 10 ^ (-2 : ℤ))
            * expq (-(h / (994186.38 * 10 ^ (-2 : ℤ))))) ∧
    (4000 ≤ h → h < 10000 →
      (atmosphere_locals expq sindeg accuracy false h elevation).1
        = 10 * 1144.9069 / (878153.55 * 10 ^ (-2 : ℤ))
            * expq (-(h / (878153.55 * 10 ^ (-2 : ℤ))))) ∧
    (10000 ≤ h → h < 40000 →
      (atmosphere_locals expq sindeg accuracy false h elevation).1
        = 10 * 1305.5948 / (636143.04 * 10 ^ (-2 : ℤ))
            * expq (-(h / (636143.04 * 10 ^ (-2 : ℤ))))) ∧
    (40000 ≤ h → h < 100000 →
      (atmosphere_locals expq sindeg accuracy false h elevation).1
        = 10 * 540.1778 / (772170.16 * 10 ^ (-2 : ℤ))
            * expq (-(h / (772170.16 * 10 ^ (-2 : ℤ))))) ∧
    (100000 ≤ h →
      (atmosphere_locals expq sindeg accuracy false h elevation).1
        = 10 * 540.1778 / (772170.16 * 10 ^ (-2 : ℤ))
            * expq (-((100000 : ℚ) / (772170.16 * 10 ^ (-2 : ℤ))))) ∧
    (1 / 10 ≤ |sindeg elevation| →
      (atmosphere_locals expq sindeg accuracy false h elevation).2
        = (us_standard_density expq h).2 / |sindeg elevation|) ∧
    (|sindeg elevation| < 1 / 10 →
      (atmosphere_locals expq sindeg accuracy false h elevation).2
        = (us_standard_density expq h).2 / (1 / 10)) := by
  have hpow : ((10 : ℚ) ^ (-2 : ℤ)) = 1 / 100 := by norm_num
  refine ⟨?_, ?_, ?_, ?_, ?_, ?_, ?_⟩
  · intro h1
    simp only [atmosphere_locals, us_standard_density, us_standard_function,
      if_pos h1, hpow]
    norm_num
  · intro h1 h2
    simp only [atmosphere_locals, us_standard_density, us_standard_function,
      if_neg (not_lt.mpr h1), if_pos h2, hpow]
    norm_num
  · intro h1 h2
    have h0 : ¬ h < 4000 := not_lt.mpr (le_trans (by norm_num) h1)
    simp only [atmosphere_locals, us_standard_density, us_standard_function,
      if_neg h0, if_neg (not_lt.mpr h1), if_pos h2, hpow]
    norm_num
  · intro h1 h2
    have h0 : ¬ h < 4000 := not_lt.mpr (le_trans (by norm_num) h1)
    have h0' : ¬ h < 10000 := not_lt.mpr (le_trans (by norm_num) h1)
    simp only [atmosphere_locals, us_standard_density, us_standard_function,
      if_neg h0, if_neg h0', if_neg (not_lt.mpr h1), if_pos h2, hpow]
    norm_num
  · intro h1
    have h0 : ¬ h < 4000 := not_lt.mpr (le_trans (by norm_num) h1)
    have h0' : ¬ h < 10000 := not_lt.mpr (le_trans (by norm_num) h1)
    have h0'' : ¬ h < 40000 := not_lt.mpr (le_trans (by norm_num) h1)
    simp only [atmosphere_locals, us_standard_density, us_standard_function,
      if_neg h0, if_neg h0', if_neg h0'', if_neg (not_lt.mpr h1), hpow]
    norm_num
  · intro h1
    simp only [atmosphere_locals, if_neg (not_lt.mpr h1)]
    norm_num
  · intro h1
    simp only [atmosphere_locals, if_pos h1]
    norm_num

/-- C8 (witness). -/
theorem atmosphere_density_step_witness :
    (atmosphere_locals (fun x => x) (fun _ => 1) 1 false 0 90).1
      = 10 * 1222.6562 / (994186.38 * 10 ^ (-2 : ℤ))
          * (fun x : ℚ => x) (-((0 : ℚ) / (994186.38 * 10 ^ (-2 : ℤ)))) ∧
    (atmosphere_locals (fun x => x) (fun _ => 1) 1 false 0 90).2
      = (us_standard_density (fun x => x) 0).2 / |(fun _ : ℚ => (1 : ℚ)) 90| :=
  ⟨(atmosphere_density_step (fun x => x) (fun _ => 1) 1 0 90).1 (by norm_num),
   (atmosphere_density_step (fun x => x) (fun _ => 1) 1 0 90).2.2.2.2.2.1
     (by norm_num)⟩

/-- C5 (counterexample): evaluating tableC5 at its exact grid vertex
(k_min, c_max, h_min) returns 5 + 6 = 11 (the cell at flat offset
2 * (n_c - 1) * n_k = 4, the last cos-elevation row), not
data[0] + data[1] = 3 as the claim states.  The log and exp oracles used
(x - 1 and x + 1) agree with the real log and exp at every point the
computation consults them (log 1 = 0 and exp (log x) = x). -/
theorem table_vertex_counterexample :
    reference_table_flux (fun x => x - 1) (fun x => x + 1) (fun _ => 1) tableC5
      tableC5.h_min 0 tableC5.k_min
      = { value := 11, asymmetry := -(1 / 11) } ∧
    dataAt tableC5.data 0 + dataAt tableC5.data 1 = 3 ∧
    (reference_table_flux (fun x => x - 1) (fun x => x + 1) (fun _ => 1) tableC5
      tableC5.h_min 0 tableC5.k_min).value
      ≠ dataAt tableC5.data 0 + dataAt tableC5.data 1 := by
  have hval : reference_table_flux (fun x => x - 1) (fun x => x + 1) (fun _ => 1) tableC5
      tableC5.h_min 0 tableC5.k_min = { value := 11, asymmetry := -(1 / 11) } := by
    have hf0 : ftrunc 0 = 0 := by norm_num [ftrunc]
    have hf1 : ftrunc 1 = 1 := by norm_num [ftrunc]
    have c00 : tableCell tableC5 0 1 0 0 = 5 := rfl
    have c01 : tableCell tableC5 0 1 0 1 = 6 := rfl
    have c10 : tableCell tableC5 0 1 1 0 = 7 := rfl
    have c11 : tableCell tableC5 0 1 1 1 = 8 := rfl
    have hp1 : tableC5.n_k = 2 := rfl
    have hp2 : tableC5.n_c = 2 := rfl
    have hp3 : tableC5.n_h = 1 := rfl
    have hp4 : tableC5.k_min = 1 := rfl
    have hp5 : tableC5.k_max = 10 := rfl
    have hp6 : tableC5.c_min = 0 := rfl
    have hp7 : tableC5.c_max = 1 := rfl
    have hp8 : tableC5.h_min = 0 := rfl
    have hp9 : tableC5.h_max = 0 := rfl
    norm_num [reference_table_flux, hp1, hp2, hp3, hp4, hp5, hp6, hp7, hp8, hp9,
      hf0, hf1, c00, c01, c10, c11]
  have hdat : dataAt tableC5.data 0 + dataAt tableC5.data 1 = 3 := by
    norm_num [dataAt, tableC5]
  refine ⟨hval, hdat, ?_⟩
  rw [hval, hdat]
  norm_num

/-- C5 (amended): for every tabulated reference flux with n_h = 1, n_k ≥ 2
and n_c ≥ 2 (proper grids: k_min > 0, c_min < c_max), evaluated at the
exact grid vertex (kinetic energy k_min, cos-elevation c_max, height h_min),
the returned value is data[j] + data[j+1] and the asymmetry is
(data[j] - data[j+1]) / (data[j] + data[j+1]) with j = 2 * (n_c - 1) * n_k:
the cell of the LAST cos-elevation row (c_max) at the first energy node, not
the first cell of the table.  The libm oracles are only constrained where
the computation consults them: log 1 = 0 and exp (log x) = x at the two
cell values (assumed positive, as fluxes are). -/
theorem table_vertex_amended (logO expO cosdeg : ℚ → ℚ) (t : RefTable)
    (elevation : ℚ)
    (hnh : t.n_h = 1) (hnk : 2 ≤ t.n_k) (hnc : 2 ≤ t.n_c)
    (hkpos : 0 < t.k_min)
    (hlog1 : logO 1 = 0)
    (hcfit : t.c_min < t.c_max)
    (hcos : cosdeg (90 - elevation) = t.c_max)
    (hd0 : 0 < dataAt t.data (2 * (t.n_c - 1) * t.n_k))
    (hd1 : 0 < dataAt t.data (2 * (t.n_c - 1) * t.n_k + 1))
    (hexp0 : expO (logO (dataAt t.data (2 * (t.n_c - 1) * t.n_k)))
        = dataAt t.data (2 * (t.n_c - 1) * t.n_k))
    (hexp1 : expO (logO (dataAt t.data (2 * (t.n_c - 1) * t.n_k + 1)))
        = dataAt t.data (2 * (t.n_c - 1) * t.n_k + 1)) :
    reference_table_flux logO expO cosdeg t t.h_min elevation t.k_min
      = { value := dataAt t.data (2 * (t.n_c - 1) * t.n_k)
                 + dataAt t.data (2 * (t.n_c - 1) * t.n_k + 1)
          asymmetry := (dataAt t.data (2 * (t.n_c - 1) * t.n_k)
                      - dataAt t.data (2 * (t.n_c - 1) * t.n_k + 1))
                     / (dataAt t.data (2 * (t.n_c - 1) * t.n_k)
                      + dataAt t.data (2 * (t.n_c - 1) * t.n_k + 1)) } := by
  have hnkQ : (2 : ℚ) ≤ (t.n_k : ℚ) := by exact_mod_cast hnk
  have hncQ : (2 : ℚ) ≤ (t.n_c : ℚ) := by exact_mod_cast hnc
  have hdel : t.c_max - t.c_min ≠ 0 := sub_ne_zero.mpr (ne_of_gt hcfit)
  have hncm : ((t.n_c : ℚ) - 1) ≠ 0 := ne_of_gt (by linarith)
  have hkne : t.k_min ≠ 0 := ne_of_gt hkpos
  have hft0 : ftrunc 0 = (0 : ℤ) := by norm_num [ftrunc]
  have hcast : ((t.n_c : ℚ) - 1) = ((t.n_c - 1 : ℤ) : ℚ) := by push_cast; ring
  have hftc : ftrunc ((t.n_c : ℚ) - 1) = t.n_c - 1 := by
    rw [hcast, ftrunc, if_pos (by exact_mod_cast (by omega : (0 : ℤ) ≤ t.n_c - 1))]
    exact Int.floor_intCast _
  have hc0eq : (t.c_max - t.c_min) / ((t.c_max - t.c_min) / ((t.n_c : ℚ) - 1))
      = (t.n_c : ℚ) - 1 := by
    field_simp
  have hcell0 : tableCell t 0 (t.n_c - 1) 0 0
      = dataAt t.data (2 * (t.n_c - 1) * t.n_k) := by
    unfold tableCell
    congr 1
    ring
  have hcell1 : tableCell t 0 (t.n_c - 1) 0 1
      = dataAt t.data (2 * (t.n_c - 1) * t.n_k + 1) := by
    unfold tableCell
    congr 1
    ring
  simp only [reference_table_flux]
  rw [div_self hkne, hlog1, zero_div, hcos]
  rw [if_neg (by push_neg; exact ⟨le_refl 0, by linarith⟩ :
      ¬ ((0 : ℚ) < 0 ∨ (0 : ℚ) > (t.n_k : ℚ) - 1))]
  rw [hft0, hc0eq]
  rw [if_neg (by push_neg; exact ⟨by linarith, le_refl _⟩ :
      ¬ ((t.n_c : ℚ) - 1 < 0 ∨ (t.n_c : ℚ) - 1 > (t.n_c : ℚ) - 1))]
  rw [hftc]
  have hhc : (t.n_c : ℚ) - 1 - ((t.n_c - 1 : ℤ) : ℚ) = 0 := by push_cast; ring
  have hknz : (0 : ℤ) < t.n_k - 1 := by omega
  have hsum : (0 : ℚ) < dataAt t.data (2 * (t.n_c - 1) * t.n_k)
      + dataAt t.data (2 * (t.n_c - 1) * t.n_k + 1) := add_pos hd0 hd1
  rw [hnh]
  simp only [gt_iff_lt, lt_self_iff_false, false_and, ite_false, if_pos hknz,
    zero_add, Int.cast_zero, sub_zero, hhc, mul_one, mul_zero, add_zero, one_mul,
    hcell0, hcell1, hexp0, hexp1, ite_self, if_pos hsum]

/-- C5 (witness). -/
theorem table_vertex_amended_witness :
    reference_table_flux (fun x => x - 1) (fun x => x + 1) (fun _ => 1) tableC5
      tableC5.h_min 0 tableC5.k_min
      = { value := dataAt tableC5.data (2 * (tableC5.n_c - 1) * tableC5.n_k)
                 + dataAt tableC5.data (2 * (tableC5.n_c - 1) * tableC5.n_k + 1)
          asymmetry := (dataAt tableC5.data (2 * (tableC5.n_c - 1) * tableC5.n_k)
                      - dataAt tableC5.data (2 * (tableC5.n_c - 1) * tableC5.n_k + 1))
                     / (dataAt tableC5.data (2 * (tableC5.n_c - 1) * tableC5.n_k)
                      + dataAt tableC5.data (2 * (tableC5.n_c - 1) * tableC5.n_k + 1)) } :=
  table_vertex_amended (fun x => x - 1) (fun x => x + 1) (fun _ => 1) tableC5 0
    rfl (by norm_num [tableC5]) (by norm_num [tableC5]) (by norm_num [tableC5])
    (by norm_num) (by norm_num [tableC5]) rfl
    (by rw [show dataAt tableC5.data (2 * (tableC5.n_c - 1) * tableC5.n_k) = 5 from rfl]
        norm_num)
    (by rw [show dataAt tableC5.data (2 * (tableC5.n_c - 1) * tableC5.n_k + 1) = 6 from rfl]
        norm_num)
    (by simp) (by simp)

end Mulder
